import Mathlib

/-
Verification of the IGR document-downloader core against its design spec.

Shallow embedding of the Python sources:
  - `Captcha`    models captcha_solver.solve_and_submit_captcha,
  - `Pool`       models webdriver_pool.WebDriverPool (get_driver / return_driver)
                 and the cleanup block in automation.run_automation,
  - `DocProc`    models document_processor.process_all_index_buttons,
  - `Automation` models automation.run_automation.

Browser/OS interactions (element lookups, OCR output, clicks, file writes)
are modelled as environment oracles: each point where the Python code asks
the outside world a question becomes a field of an environment record, and
each point where an external call can raise becomes a Bool/Option field.
Debug screenshots and logging are pure side channels and are not modelled.
-/

set_option autoImplicit false

namespace Captcha

/-- Return value of solve_and_submit_captcha: Python True / "NO_RECORDS" / False. -/
inductive CaptchaResult where
  | found
  | noRecords
  | exhausted
deriving DecidableEq, Repr

/-- First observable event during the 30-second poll after clicking search
(captcha_solver.py lines 240-271): document links appear, the no-records
marker appears, the captcha fingerprint changes (break), or the poll times out. -/
inductive PollEvent where
  | buttonsAppear
  | noRecordsAppear
  | hashChanged
  | timeout
deriving DecidableEq, Repr

/-- Everything one iteration of the attempt loop (captcha_solver.py lines
134-296) can observe from the browser.  `hash1` and `hash2` are the two
re-fingerprint checks before entering the solution and before clicking
search; `none` means the captcha element was not found at that check, in
which case the code proceeds without comparing (lines 175-187, 204-216). -/
structure AttemptEnv where
  captchaPresent : Bool
  buttonsNoCaptcha : Bool
  noRecordsNoCaptcha : Bool
  hash0 : Nat
  ocrText : String
  hash1 : Option Nat
  entryFails : Bool
  hash2 : Option Nat
  clickFails : Bool
  poll : PollEvent
  finalButtons : Bool
  finalNoRecords : Bool

/-- Result of one iteration of the attempt loop. -/
inductive StepResult where
  | found
  | noRecords
  | next
deriving DecidableEq, Repr

/-- The fingerprint comparison at a re-check point: a mismatch is detected
only when the captcha element is present and its hash differs (get_captcha_hash
plus the comparisons at captcha_solver.py lines 183 and 212). -/
def hashMismatch (h0 : Nat) : Option Nat → Bool
  | some h => h != h0
  | none => false

/-- One iteration of the for-attempt loop of solve_and_submit_captcha
(captcha_solver.py lines 134-296).  Returns the step result together with
whether the search (submit) button was actually clicked in this iteration. -/
def attemptStep (e : AttemptEnv) : StepResult × Bool :=
  if !e.captchaPresent then
    if e.buttonsNoCaptcha then (.found, false)
    else if e.noRecordsNoCaptcha then (.noRecords, false)
    else (.next, false)
  else if e.ocrText = "" then (.next, false)
  else if hashMismatch e.hash0 e.hash1 then (.next, false)
  else if e.entryFails then (.next, false)
  else if hashMismatch e.hash0 e.hash2 then (.next, false)
  else if e.clickFails then (.next, false)
  else
    match e.poll with
    | .buttonsAppear => (.found, true)
    | .noRecordsAppear => (.noRecords, true)
    | .hashChanged =>
      if e.finalButtons then (.found, true)
      else if e.finalNoRecords then (.noRecords, true)
      else (.next, true)
    | .timeout =>
      if e.finalButtons then (.found, true)
      else if e.finalNoRecords then (.noRecords, true)
      else (.next, true)

/-- The for-attempt loop: starting at attempt index `i` with `n` attempt
slots remaining, returns the early-return value (if any), the number of
submit clicks performed, and the number of attempt slots consumed. -/
def runAttempts (att : Nat → AttemptEnv) : Nat → Nat → Option CaptchaResult × Nat × Nat
  | _, 0 => (none, 0, 0)
  | i, n + 1 =>
    let s := attemptStep (att i)
    match s.1 with
    | .found => (some .found, if s.2 then 1 else 0, 1)
    | .noRecords => (some .noRecords, if s.2 then 1 else 0, 1)
    | .next =>
      let rest := runAttempts att (i + 1) n
      (rest.1, (if s.2 then 1 else 0) + rest.2.1, 1 + rest.2.2)

/-- Environment of one whole call to solve_and_submit_captcha: the initial
fast-path observations (lines 123-131), the per-attempt environments, and
the post-loop final re-check (lines 298-307). -/
structure SolverEnv where
  initButtons : Bool
  initNoRecords : Bool
  attempts : Nat → AttemptEnv
  endButtons : Bool
  endNoRecords : Bool

/-- Aggregate outcome of a call: result, submit clicks, attempt slots used. -/
structure RunStats where
  result : CaptchaResult
  submits : Nat
  slotsUsed : Nat
deriving DecidableEq, Repr

/-- Model of captcha_solver.solve_and_submit_captcha (lines 115-310). -/
def solve_and_submit_captcha (env : SolverEnv) (maxAttempts : Nat) : RunStats :=
  if env.initButtons then ⟨.found, 0, 0⟩
  else if env.initNoRecords then ⟨.noRecords, 0, 0⟩
  else
    match runAttempts env.attempts 0 maxAttempts with
    | (some r, s, u) => ⟨r, s, u⟩
    | (none, s, u) =>
      if env.endButtons then ⟨.found, s, u⟩
      else if env.endNoRecords then ⟨.noRecords, s, u⟩
      else ⟨.exhausted, s, u⟩

/-- Concrete environment in which the OCR collaborator returns an empty
candidate on every attempt (captcha present, nothing else happens). -/
def emptyOcrAttempt : AttemptEnv :=
  { captchaPresent := true
    buttonsNoCaptcha := false
    noRecordsNoCaptcha := false
    hash0 := 0
    ocrText := ""
    hash1 := some 0
    entryFails := false
    hash2 := some 0
    clickFails := false
    poll := .timeout
    finalButtons := false
    finalNoRecords := false }

/-- Solver environment where every attempt yields an empty OCR candidate. -/
def emptyOcrEnv : SolverEnv :=
  { initButtons := false
    initNoRecords := false
    attempts := fun _ => emptyOcrAttempt
    endButtons := false
    endNoRecords := false }

end Captcha

namespace Pool

/-- Observable state of one browser session handle.  `tabs` counts open
browsing contexts, `onBlank` records whether the current location is
about:blank.  The three `...Fails` flags say whether the corresponding
WebDriver operation raises on this (live) handle; every operation also
raises when the session has been quit (`alive = false`). -/
structure DriverState where
  tabs : Nat
  cookies : Nat
  onBlank : Bool
  alive : Bool
  clearCookiesFails : Bool
  closeTabsFails : Bool
  navigateFails : Bool
deriving DecidableEq, Repr

/-- driver.delete_all_cookies: `none` means the call raised. -/
def deleteAllCookies (d : DriverState) : Option DriverState :=
  if d.alive && !d.clearCookiesFails then some { d with cookies := 0 } else none

/-- The close-every-tab-except-one sequence (window_handles walk):
`none` means some call in the sequence raised. -/
def closeExtraTabs (d : DriverState) : Option DriverState :=
  if d.alive && !d.closeTabsFails then
    some (if d.tabs > 1 then { d with tabs := 1 } else d)
  else none

/-- driver.get("about:blank"): `none` means the call raised. -/
def navigateBlank (d : DriverState) : Option DriverState :=
  if d.alive && !d.navigateFails then some { d with onBlank := true } else none

/-- driver.quit (exceptions from quit are swallowed everywhere it is called). -/
def quitDriver (d : DriverState) : DriverState :=
  { d with alive := false }

/-- A fresh session as produced by WebDriverPool._create_new_driver. -/
def freshDriver : DriverState :=
  { tabs := 1
    cookies := 0
    onBlank := false
    alive := true
    clearCookiesFails := false
    closeTabsFails := false
    navigateFails := false }

/-- The pool: handles are identified by Nat ids held in a heap `store`;
`available` is the idle list (head = most recently returned, matching
Python list.append / list.pop which use the same end); `nextId` feeds
_create_new_driver with fresh ids. -/
structure PoolState where
  maxDrivers : Nat
  available : List Nat
  store : Nat → DriverState
  nextId : Nat

/-- Heap update for one handle id. -/
def setStore (p : PoolState) (i : Nat) (d : DriverState) : PoolState :=
  { p with store := fun j => if j = i then d else p.store j }

/-- WebDriverPool._create_new_driver (webdriver_pool.py lines 53-105):
session construction itself is assumed to succeed. -/
def createNewDriver (p : PoolState) : Nat × PoolState :=
  let i := p.nextId
  (i, { setStore p i freshDriver with nextId := i + 1 })

/-- WebDriverPool.get_driver (webdriver_pool.py lines 16-51).  Pops an idle
handle if present; the extra-tab cleanup failure is swallowed (lines 24-33);
if clearing cookies or navigating blank fails, the popped handle is quit and
a brand-new driver is created instead (lines 36-46). -/
def get_driver (p : PoolState) : Nat × PoolState :=
  match p.available with
  | [] => createNewDriver p
  | i :: rest =>
    let p1 := { p with available := rest }
    let d := p1.store i
    let d1 := (closeExtraTabs d).getD d
    match deleteAllCookies d1 with
    | none => createNewDriver (setStore p1 i (quitDriver d1))
    | some d2 =>
      match navigateBlank d2 with
      | none => createNewDriver (setStore p1 i (quitDriver d2))
      | some d3 => (i, setStore p1 i d3)

/-- WebDriverPool.return_driver (webdriver_pool.py lines 107-146).
delete_all_cookies raising hits the outer except and quits the handle;
failures while closing extra tabs (lines 115-124) or navigating to blank
(lines 127-130) are logged and swallowed; the handle is appended to the
idle list only when below capacity, otherwise it is quit. -/
def return_driver (p : PoolState) (i : Nat) : PoolState :=
  let d := p.store i
  match deleteAllCookies d with
  | none => setStore p i (quitDriver d)
  | some d1 =>
    let d2 := (closeExtraTabs d1).getD d1
    let d3 := (navigateBlank d2).getD d2
    let p1 := setStore p i d3
    if p1.available.length < p1.maxDrivers then
      { p1 with available := i :: p1.available }
    else
      setStore p1 i (quitDriver d3)

/-- The cleanup block in automation.run_automation (automation.py lines
877-905): close extra tabs, navigate to blank, return the driver to the
pool, then os.rmdir("__pycache__"); any exception in that sequence is
caught and answered by quitting the driver — including an rmdir failure
that happens after the driver already re-entered the idle pool.
`rmdirRaises` says whether os.rmdir raises (it does whenever the
directory is missing or non-empty). -/
def automationCleanup (p : PoolState) (i : Nat) (rmdirRaises : Bool) : PoolState :=
  let d := p.store i
  match closeExtraTabs d with
  | none => setStore p i (quitDriver d)
  | some d1 =>
    match navigateBlank d1 with
    | none => setStore p i (quitDriver d1)
    | some d2 =>
      let p1 := return_driver (setStore p i d2) i
      if rmdirRaises then setStore p1 i (quitDriver (p1.store i))
      else p1

/-- Concrete handle whose extra-tab cleanup raises: three open tabs,
cookies clear fine, navigation fine. -/
def stuckTabsDriver : DriverState :=
  { tabs := 3
    cookies := 5
    onBlank := false
    alive := true
    clearCookiesFails := false
    closeTabsFails := true
    navigateFails := false }

/-- Pool with capacity 3, no idle handles, handle 0 in active use being the
stuck-tabs driver above. -/
def poolCex : PoolState :=
  { maxDrivers := 3
    available := []
    store := fun j => if j = 0 then stuckTabsDriver else freshDriver
    nextId := 1 }

/-- Pool with capacity 3, no idle handles, handle 0 a healthy in-use driver. -/
def poolClean : PoolState :=
  { maxDrivers := 3
    available := []
    store := fun j => if j = 0 then { freshDriver with tabs := 2, cookies := 4 } else freshDriver
    nextId := 1 }

end Pool

namespace DocProc

/-- What one iteration of the page-traversal loop of
process_all_index_buttons (document_processor.py lines 190-325) observes:
the per-page processing totals returned by process_page_documents, the
outcome of the first navigate_to_next_page call (`nav1`) and the page
number read after it (`page1`, `none` when get_current_page_number fails),
whether driver.refresh raises in the retry branch, and the outcome of the
post-refresh navigation retry (`nav2`/`page2`). -/
structure IterEnv where
  processedOnPage : Nat
  downloadedOnPage : Nat
  nav1 : Bool
  page1 : Option Nat
  refreshRaises : Bool
  nav2 : Bool
  page2 : Option Nat

/-- Traversal state of process_all_index_buttons.  `trace` records, in
order, the page identifier passed to each process_page_documents call. -/
structure LoopState where
  currentPage : Nat
  documentsProcessed : Nat
  documentsDownloaded : Nat
  processedPages : List Nat
  pageAttempts : Nat → Nat
  consecutiveFailures : Nat
  iterations : Nat
  trace : List Nat

/-- max_pages, document_processor.py line 181. -/
def maxPages : Nat := 100

/-- max_attempts_per_page, document_processor.py line 182. -/
def maxAttemptsPerPage : Nat := 2

/-- max_navigation_failures, document_processor.py line 183. -/
def maxNavigationFailures : Nat := 3

/-- Page-number update after a successful navigation in the main branch
(document_processor.py lines 272-288): use the read page number if it
differs from the current one, otherwise force an increment; increment as
well when the page number cannot be read. -/
def updatedPage (cur : Nat) : Option Nat → Nat
  | some n => if n ≠ cur then n else cur + 1
  | none => cur + 1

/-- Page-number update in the post-refresh retry branch (document_processor.py
lines 312-317): the read page number is taken unconditionally, with no
same-page check. -/
def updatedPageRetry (cur : Nat) : Option Nat → Nat
  | some n => n
  | none => cur + 1

/-- The while loop of process_all_index_buttons (document_processor.py
lines 190-325), fuelled by the remaining iteration budget; `env` is indexed
by the 0-based iteration count.  Exactly mirrors the source control flow:
attempt bookkeeping and the over-attempts skip branch (lines 198-227),
page processing and counter updates (lines 230-245), navigation with forced
page increment (lines 267-291), and the failure branch with one
refresh-and-retry before giving up (lines 293-325). -/
def loopStep (env : Nat → IterEnv) : Nat → LoopState → LoopState
  | 0, s => s
  | fuel + 1, s =>
    let e := env s.iterations
    let cur := s.currentPage
    let att := s.pageAttempts cur + 1
    let s1 : LoopState :=
      { s with iterations := s.iterations + 1
               pageAttempts := fun p => if p = cur then att else s.pageAttempts p }
    if att > maxAttemptsPerPage then
      if e.nav1 then
        loopStep env fuel
          { s1 with currentPage := updatedPage cur e.page1, consecutiveFailures := 0 }
      else s1
    else
      let s2 : LoopState :=
        { s1 with documentsProcessed := s1.documentsProcessed + e.processedOnPage
                  documentsDownloaded := s1.documentsDownloaded + e.downloadedOnPage
                  processedPages :=
                    if cur ∈ s1.processedPages then s1.processedPages
                    else s1.processedPages ++ [cur]
                  trace := s1.trace ++ [cur] }
      if e.nav1 then
        loopStep env fuel
          { s2 with currentPage := updatedPage cur e.page1, consecutiveFailures := 0 }
      else
        let cf := s2.consecutiveFailures + 1
        let s3 := { s2 with consecutiveFailures := cf }
        if cf ≥ maxNavigationFailures then s3
        else if e.refreshRaises then s3
        else if e.nav2 then
          loopStep env fuel
            { s3 with currentPage := updatedPageRetry cur e.page2, consecutiveFailures := 0 }
        else s3

/-- Model of process_all_index_buttons (document_processor.py lines
145-337): initial page from get_current_page_number with fallback 1
(lines 173-178), then the traversal loop with the max_pages budget. -/
def process_all_index_buttons (env : Nat → IterEnv) (initPage : Option Nat) : LoopState :=
  loopStep env maxPages
    { currentPage := initPage.getD 1
      documentsProcessed := 0
      documentsDownloaded := 0
      processedPages := []
      pageAttempts := fun _ => 0
      consecutiveFailures := 0
      iterations := 0
      trace := [] }

/-- Iteration environment with three documents on the page and a successful
advance to the given page number. -/
def stepTo (target : Nat) : IterEnv :=
  { processedOnPage := 3
    downloadedOnPage := 3
    nav1 := true
    page1 := some target
    refreshRaises := false
    nav2 := false
    page2 := none }

/-- Iteration environment where pagination is exhausted: both the first
advance and the post-refresh retry fail. -/
def stepStuck : IterEnv :=
  { processedOnPage := 3
    downloadedOnPage := 3
    nav1 := false
    page1 := none
    refreshRaises := false
    nav2 := false
    page2 := none }

/-- Revisit scenario: page 1 is processed, navigation lands on page 2,
page 2 is processed, navigation lands back on page 1, and page 1 is
processed a second time before pagination is exhausted. -/
def revisitEnv : Nat → IterEnv
  | 0 => stepTo 2
  | 1 => stepTo 1
  | _ => stepStuck

end DocProc

namespace Automation

/-- Exceptions relevant to run_automation: reading a local variable before
assignment, and the catch-all for anything raised inside the try block. -/
inductive PyError where
  | unboundLocal
  | automationError
deriving DecidableEq, Repr

/-- The jobs[job_id] record as created by app.download_documents and
mutated by run_automation (only the fields the automation touches). -/
structure Job where
  status : String
  message : Option String
  error : Option String
  totalDocuments : Nat
  downloadedDocuments : Nat
deriving DecidableEq, Repr

/-- Job record freshly created by app.download_documents (app.py lines 89-102). -/
def initialJob : Job :=
  { status := "starting"
    message := none
    error := none
    totalDocuments := 0
    downloadedDocuments := 0 }

/-- A snapshot of the externally observable progress counters taken at a
point where run_automation writes to the jobs record: the stored
total_documents and downloaded_documents together with the local
documents_processed counter at that moment. -/
structure Snapshot where
  totalDocuments : Nat
  downloadedDocuments : Nat
  documentsProcessed : Nat
deriving DecidableEq, Repr

/-- Outcome of one iteration of the 3-attempt retry loop for a single
document (automation.py lines 427-577): the fresh button re-query has the
index out of range (break, line 433), an exception propagates out of the
try/finally (e.g. no new tab opened, line 461 — there is no except clause,
so it escapes to the main handler), the document is saved (PDF or the
screenshot fallback, both incrementing the download counter, lines 517-539),
or both save paths fail (caught at line 541, no increment). -/
inductive DocAttempt where
  | outOfRange
  | raiseError
  | saved
  | saveFailed
deriving DecidableEq, Repr

/-- Environment of one iteration of the page-processing while loop of
run_automation (lines 395-847): the IndexII button count (`none` when the
waits at lines 401-408 raise, which breaks the loop), the per-document
per-attempt outcomes, and the outcome of the pagination block at lines
583-847 (`some p`: navigated, new current page `p`; `none`: no way to a
next page was found, break).  The pagination block touches no counters. -/
structure AutoPageEnv where
  buttons : Option Nat
  doc : Nat → Nat → DocAttempt
  nextPage : Option Nat

/-- Result of the captcha stage as consumed by run_automation lines
297-310: "NO_RECORDS", falsy (failed), or truthy (solved). -/
inductive CaptchaStageResult where
  | noRecords
  | failed
  | solved
deriving DecidableEq, Repr

/-- Environment of one run_automation call after the captcha stage:
observations and failure switches for every external interaction the
counters depend on (lines 319-392), plus the per-page environments. -/
structure AutoEnv where
  getDriverRaises : Bool
  openSiteRaises : Bool
  formStageRaises : Bool
  captcha : CaptchaStageResult
  findButtonsRaises : Bool
  firstButtons : Nat
  noRecordsOnPage : Bool
  estimateRaises : Bool
  counterValue : Option Nat
  perPage : Nat
  extraPaginationLinks : Nat
  fallbackButtons : Nat
  pages : Nat → AutoPageEnv

/-- Mutable state threaded through the modelled run: the jobs record, the
snapshot trace, and the local counters of run_automation. -/
structure RunState where
  job : Job
  snaps : List Snapshot
  documentsProcessed : Nat
  downloaded : Nat
  totalFound : Nat
  currentPage : Nat

/-- Append a snapshot of the current counters to the trace. -/
def recordSnap (s : RunState) : RunState :=
  { s with snaps := s.snaps ++
      [⟨s.job.totalDocuments, s.job.downloadedDocuments, s.documentsProcessed⟩] }

def msgNoRecords : String := "No records found for the given criteria"

def msgNoDocs : String := "Search completed but no documents found for download"

def errCaptcha : String := "Failed to solve CAPTCHA after multiple attempts"

def errFindLinks : String := "Failed to find document links"

def errAutomation : String := "Automation failed"

/-- The 3-attempt retry loop for one document (automation.py lines
424-577), starting at attempt index `a` with `fuel` attempts left.
A successful save increments successfully_downloaded and writes it to the
jobs record, and — the loop having no success break (the document_processed
flag set at line 425 is never updated) — processing then continues with the
next attempt.  Returns the state and whether an exception escaped. -/
def docAttemptLoop (att : Nat → DocAttempt) : Nat → Nat → RunState → RunState × Bool
  | _, 0, s => (s, false)
  | a, fuel + 1, s =>
    match att a with
    | .outOfRange => (s, false)
    | .raiseError => (s, true)
    | .saved =>
      let s1 : RunState :=
        { s with downloaded := s.downloaded + 1
                 job := { s.job with downloadedDocuments := s.downloaded + 1 } }
      docAttemptLoop att (a + 1) fuel (recordSnap s1)
    | .saveFailed => docAttemptLoop att (a + 1) fuel s

/-- The per-page document loop (automation.py lines 419-580): documents are
indexed over the button count found at the top of the page iteration;
documents_processed is incremented after each document even if processing
failed (line 580) — but not when an exception escaped the attempt loop,
since the raise skips the increment and aborts the job. -/
def docsLoop (page : AutoPageEnv) : Nat → Nat → RunState → RunState × Bool
  | _, 0, s => (s, false)
  | i, rem + 1, s =>
    let r := docAttemptLoop (page.doc i) 0 3 s
    if r.2 then (r.1, true)
    else
      docsLoop page (i + 1) rem
        { r.1 with documentsProcessed := r.1.documentsProcessed + 1 }

/-- The page-processing while loop of run_automation (lines 395-847),
guarded by documents_processed < total_documents_found; `n` indexes the
page environments. -/
def pagesLoop (env : AutoEnv) : Nat → Nat → RunState → RunState × Bool
  | _, 0, s => (s, false)
  | n, fuel + 1, s =>
    if s.documentsProcessed < s.totalFound then
      match (env.pages n).buttons with
      | none => (s, false)
      | some 0 => (s, false)
      | some (k + 1) =>
        let r := docsLoop (env.pages n) 0 (k + 1) s
        if r.2 then (r.1, true)
        else if r.1.documentsProcessed < r.1.totalFound then
          match (env.pages n).nextPage with
          | none => (r.1, false)
          | some p => pagesLoop env (n + 1) fuel { r.1 with currentPage := p }
        else (r.1, false)
    else (s, false)

/-- The total-count estimation block (automation.py lines 349-392): prefer
the parsed lblTotalRecords counter when it parses to a nonzero value, else
estimate total_pages * per-page count when pagination links exist, else the
per-page count; on an exception, fall back to the current page count
without the zero-documents early return.  Returns the state and whether
the zero-documents early return (lines 380-383) was taken. -/
def estimateStage (env : AutoEnv) (s : RunState) : RunState × Bool :=
  if env.estimateRaises then
    let s1 : RunState :=
      { s with totalFound := env.fallbackButtons
               job := { s.job with totalDocuments := env.fallbackButtons } }
    (recordSnap s1, false)
  else
    let c := env.counterValue.getD 0
    let pages := env.extraPaginationLinks + 1
    let tdf := if c = 0 && pages > 1 then pages * env.perPage
               else if c = 0 then env.perPage
               else c
    let s1 : RunState :=
      { s with totalFound := tdf, job := { s.job with totalDocuments := tdf } }
    let s2 := recordSnap s1
    if tdf = 0 then
      ({ s2 with job := { s2.job with status := "completed", message := some msgNoDocs } },
       true)
    else (s2, false)

/-- The closing section of the try block (automation.py lines 849-858):
revise total_documents upward when more documents were downloaded than
estimated, then mark the job completed. -/
def finishJob (s : RunState) : RunState :=
  let s1 :=
    if s.downloaded > s.totalFound then
      recordSnap
        { s with totalFound := s.downloaded
                 job := { s.job with totalDocuments := s.downloaded } }
    else s
  { s1 with job := { s1.job with
      status := "completed"
      message := some ("Job completed successfully. Downloaded " ++
        toString s1.downloaded ++ "/" ++ toString s1.totalFound ++ " documents.") } }

/-- The body of the try block of run_automation (automation.py lines
146-858).  Returns the state and whether an exception escaped to the main
handler.  Form-filling stages are collapsed into failure switches since
each of them raises to the main handler on failure and touches no counters. -/
def runAutomationTry (env : AutoEnv) (s : RunState) : RunState × Bool :=
  if env.getDriverRaises then (s, true)
  else if env.openSiteRaises then (s, true)
  else if env.formStageRaises then (s, true)
  else
    match env.captcha with
    | .noRecords =>
      ({ s with job := { s.job with status := "completed", message := some msgNoRecords } },
       false)
    | .failed =>
      ({ s with job := { s.job with status := "failed", error := some errCaptcha } },
       false)
    | .solved =>
      if env.findButtonsRaises then
        ({ s with job := { s.job with status := "failed", error := some errFindLinks } },
         false)
      else
        let s1 := recordSnap
          { s with job := { s.job with totalDocuments := env.firstButtons } }
        if env.firstButtons = 0 then
          if env.noRecordsOnPage then
            ({ s1 with job :=
                { s1.job with status := "completed", message := some msgNoRecords } },
             false)
          else
            ({ s1 with job :=
                { s1.job with status := "completed", message := some msgNoDocs } },
             false)
        else
          let r := estimateStage env s1
          if r.2 then (r.1, false)
          else
            let r2 := pagesLoop env 0 (r.1.totalFound + 1) r.1
            if r2.2 then (r2.1, true)
            else (finishJob r2.1, false)

/-- Ways a run_automation call can end: return normally, or let an
exception escape the function entirely. -/
inductive ExitKind where
  | normal
  | raisedUncaught (e : PyError)
deriving DecidableEq, Repr

/-- Result of a run_automation call: final job record, the trace of
counter snapshots, and how the call ended. -/
structure AutoResult where
  job : Job
  snaps : List Snapshot
  exitKind : ExitKind
deriving DecidableEq, Repr

/-- Evaluation of the Python comparison a < b on local variables that may
be unbound: reading an unassigned local raises UnboundLocalError. -/
def pyLt : Option Nat → Option Nat → Except PyError Bool
  | some a, some b => .ok (a < b)
  | _, _ => .error .unboundLocal

/-- The try/except/finally of run_automation (automation.py lines 146-905):
exceptions escaping the try block are caught by the main handler, which
marks the job failed; the finally block only touches the driver pool
(modelled as Pool.automationCleanup) and never changes the job record. -/
def runAutomationFull (env : AutoEnv) (job : Job) : AutoResult :=
  let s0 : RunState :=
    { job := job, snaps := [], documentsProcessed := 0
      downloaded := 0, totalFound := 0, currentPage := 1 }
  let r := runAutomationTry env s0
  if r.2 then
    ⟨{ r.1.job with status := "failed", error := some errAutomation }, r.1.snaps, .normal⟩
  else
    ⟨r.1.job, r.1.snaps, .normal⟩

/-- Model of automation.run_automation (lines 96-905).  After setting the
job status to "running" (line 100), the function executes the block pasted
at lines 109-142, whose while condition at line 113 reads the locals
documents_processed and total_documents_found; both are assigned only at
lines 345-347, so the read raises UnboundLocalError before the try block
at line 146 is ever reached.  The other match arms keep the structure of
the source: were the guard false, control would fall through to the try
block (modelled by runAutomationFull); were it true, the loop body would
read the equally unassigned local current_page at line 115. -/
def run_automation (env : AutoEnv) (job : Job) : AutoResult :=
  let job1 := { job with status := "running" }
  match pyLt none none with
  | .error e => ⟨job1, [], .raisedUncaught e⟩
  | .ok true => ⟨job1, [], .raisedUncaught .unboundLocal⟩
  | .ok false => runAutomationFull env job1

/-- Page environment where pagination and buttons yield nothing. -/
def emptyPage : AutoPageEnv :=
  { buttons := none, doc := fun _ _ => .outOfRange, nextPage := none }

/-- Environment: the search yields one result page with one document and
no pagination; every save attempt for that document succeeds. -/
def envOneDoc : AutoEnv :=
  { getDriverRaises := false
    openSiteRaises := false
    formStageRaises := false
    captcha := .solved
    findButtonsRaises := false
    firstButtons := 1
    noRecordsOnPage := false
    estimateRaises := false
    counterValue := none
    perPage := 1
    extraPaginationLinks := 0
    fallbackButtons := 0
    pages := fun n =>
      if n = 0 then
        { buttons := some 1, doc := fun _ _ => .saved, nextPage := none }
      else emptyPage }

/-- Environment: the first results page shows two IndexII buttons but the
lblTotalRecords counter parses to 1; the page loop then finds no buttons. -/
def envShrinkingTotal : AutoEnv :=
  { getDriverRaises := false
    openSiteRaises := false
    formStageRaises := false
    captcha := .solved
    findButtonsRaises := false
    firstButtons := 2
    noRecordsOnPage := false
    estimateRaises := false
    counterValue := some 1
    perPage := 2
    extraPaginationLinks := 0
    fallbackButtons := 0
    pages := fun _ => { emptyPage with buttons := some 0 } }

/-- The job record as it stands when the try block starts (status set to
"running" at automation.py line 100). -/
def jobRunning : Job := { initialJob with status := "running" }

/-- Environment whose search reports the no-records marker at the captcha
stage. -/
def envNoRecords : AutoEnv := { envOneDoc with captcha := .noRecords }

end Automation

namespace Captcha

/-- Environment where document-action elements are present from the start. -/
def envInitButtons : SolverEnv := { emptyOcrEnv with initButtons := true }

/-- Environment where the no-records marker is present from the start. -/
def envInitNoRecords : SolverEnv := { emptyOcrEnv with initNoRecords := true }

/-- An attempt in which OCR yields a plausible candidate, no fingerprint
changes, and document links appear after the submit click. -/
def submitAttempt : AttemptEnv :=
  { emptyOcrAttempt with ocrText := "AB12", poll := .buttonsAppear }

end Captcha

namespace Pool

/-- Pool whose in-use handle 0 raises on delete_all_cookies. -/
def poolCookieFail : PoolState :=
  { maxDrivers := 3
    available := []
    store := fun j =>
      if j = 0 then { freshDriver with tabs := 2, clearCookiesFails := true }
      else freshDriver
    nextId := 1 }

/-- Pool already at capacity (zero idle slots allowed). -/
def poolFull : PoolState :=
  { maxDrivers := 0
    available := []
    store := fun _ => freshDriver
    nextId := 1 }

/-- Pool with one healthy idle handle (id 0) and the next fresh id 1. -/
def poolIdle : PoolState :=
  { maxDrivers := 3
    available := [0]
    store := fun _ => freshDriver
    nextId := 1 }

end Pool

namespace Captcha

/-- The attempt loop never clicks submit more often than it has slots. -/
theorem runAttempts_submits_le (att : Nat → AttemptEnv) :
    ∀ (n i : Nat), (runAttempts att i n).2.1 ≤ n := by
  intro n
  induction n with
  | zero => intro i; simp [runAttempts]
  | succ n ih =>
    intro i
    have h := ih (i + 1)
    simp only [runAttempts]
    split <;> dsimp only <;> split <;> omega

/-- If the attempt loop produced no early return, it consumed every slot
and every consumed attempt ended with result `next`. -/
theorem runAttempts_none (att : Nat → AttemptEnv) :
    ∀ (n i : Nat), (runAttempts att i n).1 = none →
      (runAttempts att i n).2.2 = n ∧
      ∀ j, j < n → (attemptStep (att (i + j))).1 = .next := by
  intro n
  induction n with
  | zero => intro i _; exact ⟨rfl, fun j hj => absurd hj (Nat.not_lt_zero j)⟩
  | succ n ih =>
    intro i hnone
    simp only [runAttempts] at hnone ⊢
    split at hnone
    · exact absurd hnone (by simp)
    · exact absurd hnone (by simp)
    · rename_i hstep
      have h2 := ih (i + 1) hnone
      constructor
      · dsimp only
        omega
      · intro j hj
        cases j with
        | zero => simpa using hstep
        | succ j =>
          have := h2.2 j (Nat.lt_of_succ_lt_succ hj)
          simpa [Nat.add_assoc, Nat.add_comm 1 j] using this

/-- An early return of the attempt loop is never `exhausted`. -/
theorem runAttempts_some (att : Nat → AttemptEnv) :
    ∀ (n i : Nat) (r : CaptchaResult), (runAttempts att i n).1 = some r →
      r = .found ∨ r = .noRecords := by
  intro n
  induction n with
  | zero => intro i r h; simp [runAttempts] at h
  | succ n ih =>
    intro i r h
    simp only [runAttempts] at h
    split at h
    · exact Or.inl (by simpa using h.symm)
    · exact Or.inr (by simpa using h.symm)
    · exact ih (i + 1) r h

/-- A fingerprint mismatch at the first re-check aborts the attempt with
no submit click. -/
theorem attemptStep_mismatch1 (e : AttemptEnv)
    (h : hashMismatch e.hash0 e.hash1 = true) : (attemptStep e).2 = false := by
  simp only [attemptStep, h]
  repeat' split
  all_goals simp_all

/-- A fingerprint mismatch at the pre-click re-check (the first re-check
having matched) aborts the attempt with no submit click. -/
theorem attemptStep_mismatch2 (e : AttemptEnv)
    (h1 : hashMismatch e.hash0 e.hash1 = false)
    (h2 : hashMismatch e.hash0 e.hash2 = true) : (attemptStep e).2 = false := by
  simp only [attemptStep, h1, h2]
  repeat' split
  all_goals simp_all

/-- Claim C3: contract of solve_and_submit_captcha with max_attempts = 5.
If document-action elements (IndexII buttons) are already present it
returns Found immediately, with no attempt consumed and no submit click;
if (those being absent) the No Records Found marker is present it returns
NoRecords immediately; and it returns Exhausted only after all 5 attempt
slots were consumed, every attempt ended without a result, and the final
re-check found neither document-action elements nor the no-records
marker. -/
theorem captcha_resolver_contract (env : SolverEnv) :
    (env.initButtons = true → solve_and_submit_captcha env 5 = ⟨.found, 0, 0⟩) ∧
    (env.initButtons = false → env.initNoRecords = true →
      solve_and_submit_captcha env 5 = ⟨.noRecords, 0, 0⟩) ∧
    ((solve_and_submit_captcha env 5).result = .exhausted →
      (solve_and_submit_captcha env 5).slotsUsed = 5 ∧
      env.endButtons = false ∧ env.endNoRecords = false ∧
      ∀ j, j < 5 → (attemptStep (env.attempts j)).1 = .next) := by
  refine ⟨fun hb => by simp [solve_and_submit_captcha, hb], fun hb hnr => by
    simp [solve_and_submit_captcha, hb, hnr], fun hex => ?_⟩
  by_cases hb : env.initButtons = true
  · simp [solve_and_submit_captcha, hb] at hex
  · replace hb : env.initButtons = false := by simpa using hb
    by_cases hnr : env.initNoRecords = true
    · simp [solve_and_submit_captcha, hb, hnr] at hex
    · replace hnr : env.initNoRecords = false := by simpa using hnr
      simp only [solve_and_submit_captcha, hb, hnr, Bool.false_eq_true, if_false] at hex ⊢
      rcases hr : runAttempts env.attempts 0 5 with ⟨or, ns, nu⟩
      rcases or with _ | r
      · have hn := runAttempts_none env.attempts 5 0 (by rw [hr])
        rw [hr] at hn hex
        by_cases heb : env.endButtons = true
        · simp [heb] at hex
        · replace heb : env.endButtons = false := by simpa using heb
          by_cases henr : env.endNoRecords = true
          · simp [heb, henr] at hex
          · replace henr : env.endNoRecords = false := by simpa using henr
            refine ⟨?_, heb, henr, fun j hj => by simpa using hn.2 j hj⟩
            simp only [heb, henr, Bool.false_eq_true, if_false]
            exact hn.1
      · have := runAttempts_some env.attempts 5 0 r (by rw [hr])
        rw [hr] at hex
        rcases this with h | h <;> simp [h] at hex

/-- Claim C3 witness: the fast paths at concrete environments and an
exhausted run consuming all five slots. -/
theorem captcha_resolver_contract_witness :
    solve_and_submit_captcha envInitButtons 5 = ⟨.found, 0, 0⟩ ∧
    solve_and_submit_captcha envInitNoRecords 5 = ⟨.noRecords, 0, 0⟩ ∧
    (solve_and_submit_captcha emptyOcrEnv 5).slotsUsed = 5 :=
  ⟨(captcha_resolver_contract envInitButtons).1 rfl,
   (captcha_resolver_contract envInitNoRecords).2.1 rfl rfl,
   ((captcha_resolver_contract emptyOcrEnv).2.2 (by decide)).1⟩

/-- Claim C4: a submit click happens in an attempt only when both
fingerprint re-checks matched the captured fingerprint (a rotation
detected at either re-check abandons the attempt before the submit
button is clicked), and the total number of genuine submit clicks in a
run never exceeds max_attempts. -/
theorem captcha_submit_race_protection (env : SolverEnv) (m : Nat) :
    (solve_and_submit_captcha env m).submits ≤ m ∧
    (∀ e : AttemptEnv, (attemptStep e).2 = true →
      hashMismatch e.hash0 e.hash1 = false ∧ hashMismatch e.hash0 e.hash2 = false) := by
  constructor
  · by_cases hb : env.initButtons = true
    · simp [solve_and_submit_captcha, hb]
    · replace hb : env.initButtons = false := by simpa using hb
      by_cases hnr : env.initNoRecords = true
      · simp [solve_and_submit_captcha, hb, hnr]
      · replace hnr : env.initNoRecords = false := by simpa using hnr
        have hs := runAttempts_submits_le env.attempts m 0
        simp only [solve_and_submit_captcha, hb, hnr, Bool.false_eq_true, if_false]
        rcases hr : runAttempts env.attempts 0 m with ⟨or, ns, nu⟩
        rw [hr] at hs
        rcases or with _ | r
        · dsimp only
          split
          · exact hs
          · split <;> exact hs
        · exact hs
  · intro e h
    refine ⟨?_, ?_⟩
    · cases hh : hashMismatch e.hash0 e.hash1
      · rfl
      · rw [attemptStep_mismatch1 e hh] at h; cases h
    · cases hh : hashMismatch e.hash0 e.hash2
      · rfl
      · cases hh1 : hashMismatch e.hash0 e.hash1
        · rw [attemptStep_mismatch2 e hh1 hh] at h; cases h
        · rw [attemptStep_mismatch1 e hh1] at h; cases h

/-- Claim C4 witness: the submit bound at a concrete environment and the
matched-fingerprint conclusion at a concrete submitting attempt. -/
theorem captcha_submit_race_protection_witness :
    (solve_and_submit_captcha emptyOcrEnv 5).submits ≤ 5 ∧
    (hashMismatch submitAttempt.hash0 submitAttempt.hash1 = false ∧
      hashMismatch submitAttempt.hash0 submitAttempt.hash2 = false) :=
  ⟨(captcha_submit_race_protection emptyOcrEnv 5).1,
   (captcha_submit_race_protection emptyOcrEnv 5).2 submitAttempt (by decide)⟩

/-- Claim C9 counterexample: in an environment where the OCR collaborator
returns an empty candidate on every attempt, the run returns Exhausted
with zero submit clicks having consumed all five attempt slots — the empty
candidates did burn the bounded attempts, instead of being retried in the
same attempt slot without cost as the claim states. -/
theorem captcha_empty_candidate_burns_attempts :
    solve_and_submit_captcha emptyOcrEnv 5 = ⟨.exhausted, 0, 5⟩ ∧
    attemptStep emptyOcrAttempt = (.next, false) := by decide

/-- Claim C9 as amended: when the OCR candidate is empty the protocol
waits briefly and moves on to the NEXT attempt index, performing no submit
click and consuming exactly one of the remaining bounded attempt slots. -/
theorem captcha_empty_candidate_consumes_slot (att : Nat → AttemptEnv) (i n : Nat)
    (hc : (att i).captchaPresent = true) (he : (att i).ocrText = "") :
    attemptStep (att i) = (.next, false) ∧
    runAttempts att i (n + 1) =
      ((runAttempts att (i + 1) n).1, (runAttempts att (i + 1) n).2.1,
        1 + (runAttempts att (i + 1) n).2.2) := by
  have hstep : attemptStep (att i) = (.next, false) := by
    simp [attemptStep, hc, he]
  refine ⟨hstep, ?_⟩
  simp only [runAttempts, hstep]
  simp

/-- Claim C9 amended witness: the first empty-candidate attempt of the
all-empty environment consumes one of the five slots. -/
theorem captcha_empty_candidate_consumes_slot_witness :
    attemptStep emptyOcrAttempt = (.next, false) ∧
    runAttempts (fun _ => emptyOcrAttempt) 0 5 =
      ((runAttempts (fun _ => emptyOcrAttempt) 1 4).1,
        (runAttempts (fun _ => emptyOcrAttempt) 1 4).2.1,
        1 + (runAttempts (fun _ => emptyOcrAttempt) 1 4).2.2) :=
  captcha_empty_candidate_consumes_slot (fun _ => emptyOcrAttempt) 0 4 rfl rfl

end Captcha

namespace Pool

/-- Claim C5 counterexample: a handle whose extra-tab cleanup raises during
return_driver (cookies clear fine) is nevertheless put into the idle pool,
still alive and still holding three open browsing contexts — the failed
reset did not cause the handle to be destroyed, and a pooled handle does
not always have at most one open browsing context. -/
theorem pool_reset_failure_still_pooled :
    (return_driver poolCex 0).available = [0] ∧
    ((return_driver poolCex 0).store 0).tabs = 3 ∧
    ((return_driver poolCex 0).store 0).alive = true := by decide

/-- Claim C5 as amended: return_driver attempts cookie clearing first and a
failure there destroys the handle rather than pooling it; failures while
closing extra tabs or navigating to a blank location are swallowed, so the
pooled handle is guaranteed to have at most one open browsing context,
zero cookies and a blank location only when those reset steps succeed; the
handle enters the idle pool only when it is below capacity and is quit
otherwise; and no handle is ever simultaneously in the idle pool and in
active use: return_driver can add only its own argument to the idle list,
and get_driver hands out either a handle it just removed from the idle
list or a freshly created handle that is not in it (given the pool is
well-formed: distinct idle ids, all below the fresh-id counter). -/
theorem pool_release_reset (p : PoolState) (i : Nat) :
    (deleteAllCookies (p.store i) = none →
      (return_driver p i).available = p.available ∧
      ((return_driver p i).store i).alive = false) ∧
    ((p.store i).alive = true → (p.store i).clearCookiesFails = false →
      (p.store i).closeTabsFails = false → (p.store i).navigateFails = false →
      p.available.length < p.maxDrivers →
      (return_driver p i).available = i :: p.available ∧
      ((return_driver p i).store i).tabs ≤ 1 ∧
      ((return_driver p i).store i).cookies = 0 ∧
      ((return_driver p i).store i).onBlank = true) ∧
    (p.maxDrivers ≤ p.available.length →
      (return_driver p i).available = p.available ∧
      ((return_driver p i).store i).alive = false) ∧
    ((return_driver p i).available = p.available ∨
      (return_driver p i).available = i :: p.available) ∧
    (p.available.Nodup → (∀ j ∈ p.available, j < p.nextId) →
      (get_driver p).1 ∉ (get_driver p).2.available) := by
  refine ⟨fun hc => ?_, fun ha h1 h2 h3 hlen => ?_, fun hfull => ?_, ?_, ?_⟩
  · simp [return_driver, hc, setStore, quitDriver]
  · have hdc : deleteAllCookies (p.store i) = some { p.store i with cookies := 0 } := by
      simp [deleteAllCookies, ha, h1]
    by_cases ht : (p.store i).tabs > 1
    · simp [return_driver, hdc, closeExtraTabs, navigateBlank, setStore, quitDriver,
        ha, h2, h3, hlen, ht]
    · simp [return_driver, hdc, closeExtraTabs, navigateBlank, setStore, quitDriver,
        ha, h2, h3, hlen, ht]
      omega
  · have hnl : ¬ p.available.length < p.maxDrivers := not_lt.mpr hfull
    rcases hc : deleteAllCookies (p.store i) with _ | d1
    · simp [return_driver, hc, setStore, quitDriver]
    · simp [return_driver, hc, setStore, quitDriver, hnl]
  · rcases hc : deleteAllCookies (p.store i) with _ | d1
    · exact Or.inl (by simp [return_driver, hc, setStore])
    · by_cases hlen2 : p.available.length < p.maxDrivers
      · exact Or.inr (by simp [return_driver, hc, setStore, hlen2])
      · exact Or.inl (by simp [return_driver, hc, setStore, quitDriver, hlen2])
  · intro hnodup hbound
    rcases hav : p.available with _ | ⟨i0, rest⟩
    · simp [get_driver, hav, createNewDriver, setStore]
    · have hi0 : i0 ∉ rest := by
        rw [hav] at hnodup
        exact (List.nodup_cons.mp hnodup).1
      have hnext : p.nextId ∉ rest := fun hmem => by
        have := hbound p.nextId (by rw [hav]; exact List.mem_cons_of_mem _ hmem)
        omega
      simp only [get_driver, hav]
      rcases hdc : deleteAllCookies
          ((closeExtraTabs (p.store i0)).getD (p.store i0)) with _ | d2
      · simpa [hdc, createNewDriver, setStore] using hnext
      · rcases hnb : navigateBlank d2 with _ | d3
        · simpa [hdc, hnb, createNewDriver, setStore] using hnext
        · simpa [hdc, hnb, setStore] using hi0

/-- Claim C5 amended witness: the branches at concrete pools — a
cookie-clear failure destroys the handle; a clean reset pools it with one
tab, no cookies, on blank; a full pool quits it; release adds at most its
own argument to the idle list; and acquiring from a well-formed pool with
one idle handle yields a handle no longer in the idle list. -/
theorem pool_release_reset_witness :
    ((return_driver poolCookieFail 0).available = [] ∧
      ((return_driver poolCookieFail 0).store 0).alive = false) ∧
    ((return_driver poolClean 0).available = [0] ∧
      ((return_driver poolClean 0).store 0).tabs ≤ 1 ∧
      ((return_driver poolClean 0).store 0).cookies = 0 ∧
      ((return_driver poolClean 0).store 0).onBlank = true) ∧
    ((return_driver poolFull 0).available = [] ∧
      ((return_driver poolFull 0).store 0).alive = false) ∧
    ((return_driver poolClean 0).available = poolClean.available ∨
      (return_driver poolClean 0).available = 0 :: poolClean.available) ∧
    (get_driver poolIdle).1 ∉ (get_driver poolIdle).2.available :=
  ⟨(pool_release_reset poolCookieFail 0).1 (by decide),
   (pool_release_reset poolClean 0).2.1 (by decide) (by decide) (by decide)
     (by decide) (by decide),
   (pool_release_reset poolFull 0).2.2.1 (by decide),
   (pool_release_reset poolClean 0).2.2.2.1,
   (pool_release_reset poolIdle 0).2.2.2.2 (by decide) (by simp [poolIdle])⟩

/-- Claim C10 counterexample: after the cleanup path returns the handle to
the pool and os.rmdir raises, the quit handle does remain in the idle
pool — but a later get_driver does NOT hand it to the job: it pops the
dead handle, fails to reset it, and returns a freshly created driver
(id 1, not the dead id 0), leaving the idle list empty. -/
theorem pool_dead_handle_not_handed_out :
    (automationCleanup poolClean 0 true).available = [0] ∧
    ((automationCleanup poolClean 0 true).store 0).alive = false ∧
    (get_driver (automationCleanup poolClean 0 true)).1 = 1 ∧
    (get_driver (automationCleanup poolClean 0 true)).2.available = [] := by decide

/-- Claim C10 as amended: when os.rmdir raises after a successful return,
the cleanup handler quits the driver that already re-entered the idle
pool, so a dead handle remains pooled; a later get_driver that pops a dead
handle fails to reset it, quits it, and hands the caller a freshly created
driver instead of the dead one. -/
theorem pool_cleanup_dead_handle (p : PoolState) (i : Nat)
    (ha : (p.store i).alive = true) (h1 : (p.store i).clearCookiesFails = false)
    (h2 : (p.store i).closeTabsFails = false) (h3 : (p.store i).navigateFails = false)
    (hlen : p.available.length < p.maxDrivers) :
    (i ∈ (automationCleanup p i true).available ∧
      ((automationCleanup p i true).store i).alive = false) ∧
    (∀ (q : PoolState) (j : Nat) (rest : List Nat), q.available = j :: rest →
      (q.store j).alive = false →
      (get_driver q).1 = q.nextId ∧ (get_driver q).2.available = rest ∧
      ((get_driver q).2.store q.nextId).alive = true) := by
  constructor
  · by_cases ht : (p.store i).tabs > 1 <;>
      simp [automationCleanup, return_driver, closeExtraTabs, navigateBlank,
        deleteAllCookies, setStore, quitDriver, ha, h1, h2, h3, hlen, ht]
  · intro q j rest hav hdead
    have hct : closeExtraTabs (q.store j) = none := by simp [closeExtraTabs, hdead]
    have hdc : deleteAllCookies (q.store j) = none := by simp [deleteAllCookies, hdead]
    simp [get_driver, hav, hct, hdc, createNewDriver, setStore, quitDriver, freshDriver]

/-- Claim C10 amended witness: the concrete dead-handle-in-pool scenario
and the subsequent acquisition that replaces it. -/
theorem pool_cleanup_dead_handle_witness :
    (0 ∈ (automationCleanup poolClean 0 true).available ∧
      ((automationCleanup poolClean 0 true).store 0).alive = false) ∧
    ((get_driver (automationCleanup poolClean 0 true)).1 =
        (automationCleanup poolClean 0 true).nextId ∧
      (get_driver (automationCleanup poolClean 0 true)).2.available = [] ∧
      ((get_driver (automationCleanup poolClean 0 true)).2.store
        (automationCleanup poolClean 0 true).nextId).alive = true) :=
  ⟨(pool_cleanup_dead_handle poolClean 0 (by decide) (by decide) (by decide)
      (by decide) (by decide)).1,
   (pool_cleanup_dead_handle poolClean 0 (by decide) (by decide) (by decide)
      (by decide) (by decide)).2
     (automationCleanup poolClean 0 true) 0 [] (by decide) (by decide)⟩

end Pool

namespace DocProc

/-- The loop body adds at most `fuel` to the iteration counter. -/
theorem loopStep_iterations_le (env : Nat → IterEnv) :
    ∀ (fuel : Nat) (s : LoopState),
      (loopStep env fuel s).iterations ≤ s.iterations + fuel := by
  intro fuel
  induction fuel with
  | zero => intro s; simp [loopStep]
  | succ fuel ih =>
    intro s
    simp only [loopStep]
    repeat' split
    all_goals first
      | (exact le_trans (ih _) (by dsimp only; omega))
      | (dsimp only; omega)

/-- Invariant: the number of times a page identifier appears in the
processing trace never exceeds its attempt count, itself capped at
max_attempts_per_page as far as processing is concerned. -/
theorem loopStep_count_invariant (env : Nat → IterEnv) :
    ∀ (fuel : Nat) (s : LoopState),
      (∀ q, s.trace.count q ≤ min (s.pageAttempts q) maxAttemptsPerPage) →
      ∀ q, (loopStep env fuel s).trace.count q ≤
        min ((loopStep env fuel s).pageAttempts q) maxAttemptsPerPage := by
  intro fuel
  induction fuel with
  | zero => intro s hI q; simpa [loopStep] using hI q
  | succ fuel ih =>
    intro s hI q
    have hbump : ∀ q2, s.trace.count q2 ≤
        min ((fun p => if p = s.currentPage then s.pageAttempts s.currentPage + 1
          else s.pageAttempts p) q2) maxAttemptsPerPage := by
      intro q2
      have hIq := hI q2
      by_cases hq : q2 = s.currentPage
      · subst hq
        simp
        omega
      · simpa [hq] using hIq
    have hproc : s.pageAttempts s.currentPage + 1 ≤ maxAttemptsPerPage →
        ∀ q2, (s.trace ++ [s.currentPage]).count q2 ≤
          min ((fun p => if p = s.currentPage then s.pageAttempts s.currentPage + 1
            else s.pageAttempts p) q2) maxAttemptsPerPage := by
      intro hatt q2
      have hIq := hI q2
      by_cases hq : q2 = s.currentPage
      · subst hq
        simp
        omega
      · have hzero : ([s.currentPage] : List Nat).count q2 = 0 :=
          List.count_eq_zero.mpr (by simpa using hq)
        simp [hzero, hq]
        omega
    simp only [loopStep]
    repeat' split
    all_goals first
      | (refine ih _ ?_ q; intro q2; first
          | exact hbump q2
          | exact hproc (by omega) q2)
      | (exact hbump q)
      | (exact hproc (by omega) q)

/-- One full iteration of the loop when the page is fresh, the failure
counter is clear, and both the page advance and its post-refresh retry
fail: the page is processed, its documents are counted, and the traversal
ends in this very iteration. -/
theorem loopStep_exhausted_step (env : Nat → IterEnv) (fuel : Nat) (s : LoopState)
    (h0 : s.pageAttempts s.currentPage = 0) (hcf : s.consecutiveFailures = 0)
    (hn1 : (env s.iterations).nav1 = false) (hn2 : (env s.iterations).nav2 = false) :
    (loopStep env (fuel + 1) s).iterations = s.iterations + 1 ∧
    (loopStep env (fuel + 1) s).trace = s.trace ++ [s.currentPage] ∧
    (loopStep env (fuel + 1) s).documentsProcessed =
      s.documentsProcessed + (env s.iterations).processedOnPage := by
  simp only [loopStep, h0, hcf, hn1, hn2, maxAttemptsPerPage, maxNavigationFailures]
  norm_num

/-- Claim C8: the page-traversal loop of process_all_index_buttons always
terminates with a summary: it performs at most max_pages = 100 iterations,
and when pagination is exhausted (the page advance and its post-refresh
retry keep failing) it stops after that very iteration — far below the
configured max_navigation_failures = 3 — treating the exhausted pagination
as a terminal state, with the documents of the processed page still
counted. -/
theorem traversal_loop_bounded (env : Nat → IterEnv) (initPage : Option Nat) :
    (process_all_index_buttons env initPage).iterations ≤ maxPages ∧
    ((∀ n, (env n).nav1 = false ∧ (env n).nav2 = false) →
      (process_all_index_buttons env initPage).iterations = 1 ∧
      (process_all_index_buttons env initPage).trace = [initPage.getD 1] ∧
      (process_all_index_buttons env initPage).documentsProcessed =
        (env 0).processedOnPage) := by
  constructor
  · have := loopStep_iterations_le env maxPages
      { currentPage := initPage.getD 1, documentsProcessed := 0, documentsDownloaded := 0
        processedPages := [], pageAttempts := fun _ => 0, consecutiveFailures := 0
        iterations := 0, trace := [] }
    simpa [process_all_index_buttons] using this
  · intro h
    have h100 : maxPages = 99 + 1 := by norm_num [maxPages]
    have := loopStep_exhausted_step env 99
      { currentPage := initPage.getD 1, documentsProcessed := 0, documentsDownloaded := 0
        processedPages := [], pageAttempts := fun _ => 0, consecutiveFailures := 0
        iterations := 0, trace := [] }
      rfl rfl (h 0).1 (h 0).2
    simpa [process_all_index_buttons, h100] using this

/-- Claim C8 witness: a concrete run whose every page advance fails stops
after one iteration with the first page processed and its three documents
counted. -/
theorem traversal_loop_bounded_witness :
    (process_all_index_buttons (fun _ => stepStuck) (some 1)).iterations ≤ maxPages ∧
    (process_all_index_buttons (fun _ => stepStuck) (some 1)).iterations = 1 ∧
    (process_all_index_buttons (fun _ => stepStuck) (some 1)).trace = [1] ∧
    (process_all_index_buttons (fun _ => stepStuck) (some 1)).documentsProcessed = 3 :=
  ⟨(traversal_loop_bounded (fun _ => stepStuck) (some 1)).1,
   (traversal_loop_bounded (fun _ => stepStuck) (some 1)).2 (fun _ => ⟨rfl, rfl⟩)⟩

/-- Claim C7 counterexample: in a run where navigation leads from page 1
to page 2 and then back to page 1, the engine re-runs the per-page
processing on page 1 even though page 1 is already in its processed-pages
set (the set is written but never consulted): the processing trace is
[1, 2, 1], and with three documents per page documents_processed ends at
9, double-counting page 1. -/
theorem traversal_revisits_processed_page :
    (process_all_index_buttons revisitEnv (some 1)).trace = [1, 2, 1] ∧
    (process_all_index_buttons revisitEnv (some 1)).processedPages = [1, 2] ∧
    (process_all_index_buttons revisitEnv (some 1)).documentsProcessed = 9 := by
  decide

/-- Claim C7 as amended: the traversal loop never consults its
processed-pages set and may re-run the per-page processing on a page
identifier already marked processed, double-counting documents_processed;
the only reprocessing bound is the per-page attempt cap, so each page
identifier is processed at most max_attempts_per_page = 2 times in any
run. -/
theorem traversal_page_processed_at_most_twice (env : Nat → IterEnv)
    (initPage : Option Nat) (p : Nat) :
    (process_all_index_buttons env initPage).trace.count p ≤ maxAttemptsPerPage := by
  have := loopStep_count_invariant env maxPages
    { currentPage := initPage.getD 1, documentsProcessed := 0, documentsDownloaded := 0
      processedPages := [], pageAttempts := fun _ => 0, consecutiveFailures := 0
      iterations := 0, trace := [] }
    (fun q => by simp) p
  exact le_trans (by simpa [process_all_index_buttons] using this) (min_le_right _ _)

end DocProc

namespace Automation

/-- Claim C1: run_automation never reaches its try/except/finally.  For
every environment and every job, the while condition of the block pasted
at automation.py lines 109-142 reads the locals documents_processed and
total_documents_found before their first assignment (lines 345-347), so
the call raises UnboundLocalError at line 113 — outside the try block at
line 146.  The exception escapes run_automation uncaught, the job record
is left with status "running" (neither failed nor completed, no error
message), and no cleanup runs — the claimed top-level handler and
guaranteed cleanup are never reached. -/
theorem run_automation_crashes_before_handler (env : AutoEnv) (job : Job) :
    run_automation env job =
      ⟨{ job with status := "running" }, [], .raisedUncaught .unboundLocal⟩ := rfl

/-- Claim C2: for a search that reports the no-records marker, the actual
run_automation still dies of the UnboundLocalError raised at automation.py
line 113 before the captcha stage, leaving the job stuck at status
"running" — it never ends "completed".  The post-line-143 logic
(runAutomationFull), had it been reached, would have implemented the
claim: status completed, the explanatory message, counters untouched and
an empty download trace. -/
theorem no_records_outcome_unreachable (env : AutoEnv) (job : Job)
    (hc : env.captcha = .noRecords) (h1 : env.getDriverRaises = false)
    (h2 : env.openSiteRaises = false) (h3 : env.formStageRaises = false) :
    (run_automation env job).exitKind = .raisedUncaught .unboundLocal ∧
    (run_automation env job).job.status = "running" ∧
    (runAutomationFull env { job with status := "running" }).job.status = "completed" ∧
    (runAutomationFull env { job with status := "running" }).job.message =
      some msgNoRecords ∧
    (runAutomationFull env { job with status := "running" }).job.totalDocuments =
      job.totalDocuments ∧
    (runAutomationFull env { job with status := "running" }).job.downloadedDocuments =
      job.downloadedDocuments ∧
    (runAutomationFull env { job with status := "running" }).snaps = [] := by
  refine ⟨rfl, rfl, ?_⟩
  simp [runAutomationFull, runAutomationTry, h1, h2, h3, hc]

/-- Claim C2 witness: the no-records environment at the freshly created
job record. -/
theorem no_records_outcome_unreachable_witness :
    (run_automation envNoRecords initialJob).exitKind =
      .raisedUncaught .unboundLocal ∧
    (run_automation envNoRecords initialJob).job.status = "running" ∧
    (runAutomationFull envNoRecords { initialJob with status := "running" }).job.status =
      "completed" ∧
    (runAutomationFull envNoRecords { initialJob with status := "running" }).job.message =
      some msgNoRecords ∧
    (runAutomationFull envNoRecords
      { initialJob with status := "running" }).job.totalDocuments =
      initialJob.totalDocuments ∧
    (runAutomationFull envNoRecords
      { initialJob with status := "running" }).job.downloadedDocuments =
      initialJob.downloadedDocuments ∧
    (runAutomationFull envNoRecords { initialJob with status := "running" }).snaps = [] :=
  no_records_outcome_unreachable envNoRecords initialJob rfl rfl rfl rfl

/-- Claim C6: the progress-counter invariants fail on the document-download
logic of run_automation (lines 395-858; modelled by runAutomationFull since
the pasted block at line 113 prevents this code from ever running).  With
one page holding one document whose three retry attempts all succeed —
the retry loop has no success break, the document_processed flag set at
line 425 is never updated — the jobs record passes through the snapshot
(total_documents = 1, downloaded_documents = 2, documents_processed = 0),
where 2 > max 1 0, violating downloaded ≤ max(total, processed).  And with
a first page showing two IndexII buttons while the lblTotalRecords counter
parses to 1, the stored total_documents goes from 2 down to 1, violating
monotonicity. -/
theorem counters_violate_invariant :
    Snapshot.mk 1 2 0 ∈ (runAutomationFull envOneDoc jobRunning).snaps ∧
    2 > max 1 0 ∧
    ((runAutomationFull envShrinkingTotal jobRunning).snaps.map
      Snapshot.totalDocuments) = [2, 1] := by
  decide

end Automation
